import Mathlib

/-!
Shallow embedding of the booking & pricing core of the hotel-management
Flask application (src/app.py), together with theorems settling the
specification claims about it.

Modelling conventions:
* Python floats holding money are modelled as exact rationals (ℚ).
  Python's `round(x, 2)` is modelled by `round2`, which rounds
  `x * 100` to the nearest integer with ties going to the even
  integer (Python's round-half-to-even), then divides by 100.
* `datetime.now().month` is an injected `month : ℕ` parameter
  (the clock collaborator of the spec).
* Check-in / check-out dates are modelled as integer day ordinals,
  so `(check_out_date - check_in_date).days` becomes plain integer
  subtraction.
* The SQLAlchemy tables are lists of records inside a `World`
  structure; each Flask route that mutates state becomes a function
  from `World` to `World` (plus an `Except` error where the route can
  reject).
-/

/-- `TAX_RATE = 0.10` from the top of app.py. -/
def TAX_RATE : ℚ := 10/100

/-- `WINTER_SURGE = 0.40` (Dec, Jan). -/
def WINTER_SURGE : ℚ := 40/100

/-- `SUMMER_SURGE = 0.30` (Jun-Aug). -/
def SUMMER_SURGE : ℚ := 30/100

/-- `SPRING_SURGE = 0.20` (Mar-May). -/
def SPRING_SURGE : ℚ := 20/100

/-- Round a rational to the nearest integer, ties to even: the rounding
Python's builtin `round` applies to the (exact) value. -/
def roundHalfEven (x : ℚ) : ℤ :=
  if x - ⌊x⌋ < 1/2 then ⌊x⌋
  else if 1/2 < x - ⌊x⌋ then ⌊x⌋ + 1
  else if ⌊x⌋ % 2 = 0 then ⌊x⌋ else ⌊x⌋ + 1

/-- Python's `round(x, 2)`: two-decimal monetary rounding. -/
def round2 (x : ℚ) : ℚ := (roundHalfEven (x * 100) : ℚ) / 100

/-- The seasonal-factor if-chain at the start of
`calculate_price_breakdown` (app.py lines 85-92), factored out so the
claims can refer to it. -/
def seasonal_factor (month : ℕ) : ℚ :=
  if month = 12 ∨ month = 1 then WINTER_SURGE
  else if month = 6 ∨ month = 7 ∨ month = 8 then SUMMER_SURGE
  else if month = 3 ∨ month = 4 ∨ month = 5 then SPRING_SURGE
  else 0

/-- The dictionary returned by `calculate_price_breakdown`. -/
structure PriceBreakdown where
  base_price : ℚ
  seasonal_percent : ℤ
  price_before_tax : ℚ
  tax_amount : ℚ
  total_price : ℚ
  deriving Repr, DecidableEq

/-- `calculate_price_breakdown` (app.py lines 81-106).  The month of
`datetime.now()` is the explicit argument `month`; Python's
`int(seasonal_factor * 100)` is `⌊·⌋` (the factor is non-negative, so
floor agrees with Python's truncation toward zero). -/
def calculate_price_breakdown (base_price : ℚ) (month : ℕ) : PriceBreakdown :=
  let f := seasonal_factor month
  let seasonal_price := round2 (base_price * (1 + f))
  let tax_amount := round2 (seasonal_price * TAX_RATE)
  let total_price := round2 (seasonal_price + tax_amount)
  { base_price := base_price
  , seasonal_percent := ⌊f * 100⌋
  , price_before_tax := seasonal_price
  , tax_amount := tax_amount
  , total_price := total_price }

/-- `calculate_dynamic_price` (app.py lines 75-78): the pre-tax
seasonally adjusted rate used for search and display. -/
def calculate_dynamic_price (base_price : ℚ) (month : ℕ) : ℚ :=
  (calculate_price_breakdown base_price month).price_before_tax

/-- The `Room` model (app.py lines 41-46); `created_at`-style wall-clock
columns are omitted throughout (irrelevant to every claim). -/
structure Room where
  id : ℕ
  room_type : String
  base_price : ℚ
  is_available : Bool
  description : String
  deriving Repr, DecidableEq

/-- The `Reservation` model (app.py lines 49-62).  `check_in` and
`check_out` are day ordinals; `base_price` is the subtotal, exactly as
in the source's column naming. -/
structure Reservation where
  id : ℕ
  user_id : ℕ
  room_id : ℕ
  check_in : ℤ
  check_out : ℤ
  daily_price : ℚ
  days : ℤ
  base_price : ℚ
  tax_amount : ℚ
  total_price : ℚ
  status : String
  paid : Bool
  deriving Repr, DecidableEq

/-- The `Payment` model (app.py lines 65-71). -/
structure Payment where
  id : ℕ
  reservation_id : ℕ
  amount : ℚ
  method : String
  status : String
  deriving Repr, DecidableEq

/-- The persistent store: the three tables the core reads and writes,
each in insertion order. -/
structure World where
  rooms : List Room
  reservations : List Reservation
  payments : List Payment
  deriving Repr, DecidableEq

/-- Primary-key lookup used by `Room.query.get_or_404`. -/
def findRoom (w : World) (room_id : ℕ) : Option Room :=
  w.rooms.find? (fun r => r.id == room_id)

/-- Primary-key lookup used by `Reservation.query.get_or_404`. -/
def findReservation (w : World) (reservation_id : ℕ) : Option Reservation :=
  w.reservations.find? (fun r => r.id == reservation_id)

/-- Autoincremented primary key for a freshly inserted reservation. -/
def newResId (w : World) : ℕ :=
  w.reservations.foldr (fun r m => max r.id m) 0 + 1

/-- Autoincremented primary key for a freshly inserted payment. -/
def newPayId (w : World) : ℕ :=
  w.payments.foldr (fun p m => max p.id m) 0 + 1

/-- Errors the booking route can reject with. -/
inductive BookError where
  | NotFound
  | RoomUnavailable
  deriving Repr, DecidableEq

/-- The booking POST handler `book` (app.py lines 302-357), as a state
transformer.  It looks the room up, rejects when it is unavailable,
clamps a non-positive night count to 1, prices the stay from
`calculate_price_breakdown`, and atomically inserts the reservation
while flipping the room's availability off.  `payment_method` is the
raw form string; `paid` is `payment_method != ""` as in the source. -/
def book (w : World) (room_id user_id : ℕ) (check_in check_out : ℤ)
    (payment_method : String) (month : ℕ) :
    Except BookError (Reservation × World) :=
  match findRoom w room_id with
  | none => .error .NotFound
  | some room =>
    if room.is_available = false then .error .RoomUnavailable
    else
      let days0 := check_out - check_in
      let days := if days0 ≤ 0 then 1 else days0
      let pricing := calculate_price_breakdown room.base_price month
      let daily_price := pricing.price_before_tax
      let subtotal := round2 (daily_price * (days : ℚ))
      let tax_amount := round2 (subtotal * TAX_RATE)
      let total_price := round2 (subtotal + tax_amount)
      let res : Reservation :=
        { id := newResId w
        , user_id := user_id
        , room_id := room.id
        , check_in := check_in
        , check_out := check_out
        , daily_price := daily_price
        , days := days
        , base_price := subtotal
        , tax_amount := tax_amount
        , total_price := total_price
        , status := "confirmed"
        , paid := payment_method != "" }
      .ok (res,
        { w with
          rooms := w.rooms.map
            (fun r => if r.id == room_id then { r with is_available := false } else r)
        , reservations := w.reservations ++ [res] })

/-- The world after a `book` call: unchanged when the route rejects. -/
def bookRun (w : World) (room_id user_id : ℕ) (check_in check_out : ℤ)
    (payment_method : String) (month : ℕ) : World :=
  match book w room_id user_id check_in check_out payment_method month with
  | .ok (_, w2) => w2
  | .error _ => w

/-- The payment POST handler `pay_page` (app.py lines 385-407): insert a
Payment row and set the reservation's `paid` flag to true.  When the
reservation id resolves to nothing the route 404s and the store is
untouched. -/
def recordPayment (w : World) (reservation_id : ℕ) (amount : ℚ)
    (method : String) : World :=
  match findReservation w reservation_id with
  | none => w
  | some _ =>
    { w with
      payments := w.payments ++
        [{ id := newPayId w
         , reservation_id := reservation_id
         , amount := amount
         , method := method
         , status := "paid" }]
    , reservations := w.reservations.map
        (fun r => if r.id == reservation_id then { r with paid := true } else r) }

/-- The deletion guard inside `delete_room` (app.py lines 244-252): the
room may be deleted iff no reservation referencing it has status
"confirmed". -/
def can_delete_room (w : World) (room_id : ℕ) : Bool :=
  (w.reservations.find?
    (fun r => r.room_id == room_id && r.status == "confirmed")).isNone

/-- The deletion POST handler `delete_room` (app.py lines 235-258): 404
when the room does not exist, refuse when the guard trips, otherwise
delete the row. -/
def deleteRoom (w : World) (room_id : ℕ) : World :=
  match findRoom w room_id with
  | none => w
  | some _ =>
    if can_delete_room w room_id then
      { w with rooms := w.rooms.filter (fun r => !(r.id == room_id)) }
    else w

/-- A room as rendered by the search page: the row plus the
`price_today` attribute the handler attaches to it. -/
structure RoomWithPrice where
  room : Room
  price_today : ℚ
  deriving Repr, DecidableEq

/-- The truthiness-plus-parse outcome of the `max_price` form field:
`none` for an absent or empty field, `some none` for a non-empty field
`float()` raises on, `some (some m)` for a field parsing to `m`. -/
abbrev MaxPriceField := Option (Option ℚ)

/-- The filter body of the POST branch of `search` (app.py lines
278-292): `true` exactly when the loop does not `continue` past the
room.  `room_type = none` models an absent or empty (falsy) field; the
`some none` parse failure lands in the bare `except: pass`, keeping the
room. -/
def keepRoom (room_type : Option String) (max_price : MaxPriceField)
    (r : Room) (price_today : ℚ) : Bool :=
  (match room_type with
   | none => true
   | some t => !(t != "" && t != "Any" && r.room_type != t)) &&
  (match max_price with
   | none => true
   | some none => true
   | some (some m) => !(decide (price_today > m)))

/-- The search handler `search` (app.py lines 262-298): take the
available rooms in store order, attach `price_today`, and keep those
passing the two filters.  With both filters absent this is also the GET
branch and the `/api/search_rooms` listing. -/
def searchRooms (rooms : List Room) (room_type : Option String)
    (max_price : MaxPriceField) (month : ℕ) : List RoomWithPrice :=
  ((rooms.filter (fun r => r.is_available)).map
    (fun r => { room := r, price_today := calculate_dynamic_price r.base_price month })).filter
    (fun rp => keepRoom room_type max_price rp.room rp.price_today)


/-- One booking-season of repeated payment calls: run `recordPayment`
against the same reservation once per `(amount, method)` pair, in
order. -/
def payCalls (w : World) (rid : ℕ) : List (ℚ × String) → World
  | [] => w
  | c :: cs => payCalls (recordPayment w rid c.1 c.2) rid cs

/-- The three state-mutating operations of this core, for claims that
quantify over every operation. -/
inductive CoreOp where
  | bookCall (room_id user_id : ℕ) (check_in check_out : ℤ)
      (payment_method : String) (month : ℕ)
  | payCall (reservation_id : ℕ) (amount : ℚ) (method : String)
  | deleteCall (room_id : ℕ)

/-- Run one core operation against the store. -/
def applyOp (w : World) : CoreOp → World
  | .bookCall a b c d e f => bookRun w a b c d e f
  | .payCall a b c => recordPayment w a b c
  | .deleteCall a => deleteRoom w a

/-- The room-keeping condition exactly as the claim about `search`
words it, sentinel string included: kept rooms match the type filter
whenever that filter is present and differs from "any", and respect a
parsed price cap. -/
def specKeep (room_type : Option String) (max_price : MaxPriceField)
    (r : Room) (price_today : ℚ) : Prop :=
  (∀ t, room_type = some t → t ≠ "any" → r.room_type = t) ∧
  (∀ m, max_price = some (some m) → price_today ≤ m)

/-- The amended keeping condition: the sentinel the code actually
compares against is "Any" (capital A), and a present-but-empty type
filter is falsy in Python, so it filters nothing. -/
def specKeepAmended (room_type : Option String) (max_price : MaxPriceField)
    (r : Room) (price_today : ℚ) : Bool :=
  (match room_type with
   | none => true
   | some t => if t ≠ "" ∧ t ≠ "Any" then decide (r.room_type = t) else true) &&
  (match max_price with
   | none => true
   | some none => true
   | some (some m) => decide (price_today ≤ m))

def sampleRoom : Room := ⟨1, "Standard", 100, true, ""⟩

def sampleWorld : World := ⟨[sampleRoom], [], []⟩

def sampleRes : Reservation := ⟨1, 7, 1, 0, 3, 140, 3, 420, 42, 462, "confirmed", true⟩

def sampleWorld2 : World := ⟨[⟨1, "Standard", 100, false, ""⟩], [sampleRes], []⟩

/-- A persisted but not yet paid reservation, for payment-claim
witnesses. -/
def sampleResUnpaid : Reservation :=
  ⟨5, 7, 1, 0, 3, 140, 3, 420, 42, 462, "confirmed", false⟩


/-- The seasonal factor is always one of 0.40, 0.30, 0.20, 0. -/
theorem seasonal_factor_nonneg (month : ℕ) : 0 ≤ seasonal_factor month := by
  unfold seasonal_factor WINTER_SURGE SUMMER_SURGE SPRING_SURGE
  split_ifs <;> norm_num

/-- Rounding a non-positive value stays non-positive. -/
theorem roundHalfEven_nonpos {x : ℚ} (hx : x ≤ 0) : roundHalfEven x ≤ 0 := by
  have hfl : (⌊x⌋ : ℚ) ≤ x := Int.floor_le x
  have hfl0 : ⌊x⌋ ≤ 0 := by exact_mod_cast hfl.trans hx
  unfold roundHalfEven
  split_ifs with h1 h2 h3
  · exact hfl0
  · -- the fractional part exceeds 1/2, so the floor is at most -1
    have : (⌊x⌋ : ℚ) < x - 1/2 := by linarith
    have hlt : (⌊x⌋ : ℚ) < -(1/2) := by linarith
    have : ⌊x⌋ < 0 := by
      by_contra hc
      push_neg at hc
      have : (0 : ℚ) ≤ (⌊x⌋ : ℚ) := by exact_mod_cast hc
      linarith
    omega
  · exact hfl0
  · -- exact tie: x - ⌊x⌋ = 1/2 with x ≤ 0 forces ⌊x⌋ ≤ -1
    have heq : x - ⌊x⌋ = 1/2 := le_antisymm (not_lt.mp h2) (not_lt.mp h1)
    have : (⌊x⌋ : ℚ) = x - 1/2 := by linarith
    have hlt : (⌊x⌋ : ℚ) ≤ -(1/2) := by linarith
    have : ⌊x⌋ < 0 := by
      by_contra hc
      push_neg at hc
      have : (0 : ℚ) ≤ (⌊x⌋ : ℚ) := by exact_mod_cast hc
      linarith
    omega

/-- `round2` of a non-positive value is non-positive. -/
theorem round2_nonpos {x : ℚ} (hx : x ≤ 0) : round2 x ≤ 0 := by
  have h := roundHalfEven_nonpos (x := x * 100) (by nlinarith)
  unfold round2
  have : ((roundHalfEven (x * 100) : ℤ) : ℚ) ≤ 0 := by exact_mod_cast h
  linarith

/-- Structural inversion of a successful booking. -/
theorem book_ok_cases {w : World} {room_id user_id : ℕ} {ci co : ℤ}
    {pm : String} {month : ℕ} {res : Reservation} {w2 : World}
    (hok : book w room_id user_id ci co pm month = .ok (res, w2)) :
    ∃ room, findRoom w room_id = some room ∧ room.is_available = true ∧
      res.id = newResId w ∧
      res.status = "confirmed" ∧
      res.paid = (pm != "") ∧
      res.days = (if co - ci ≤ 0 then 1 else co - ci) ∧
      res.daily_price
        = (calculate_price_breakdown room.base_price month).price_before_tax ∧
      res.base_price = round2 (res.daily_price * (res.days : ℚ)) ∧
      res.tax_amount = round2 (res.base_price * TAX_RATE) ∧
      res.total_price = round2 (res.base_price + res.tax_amount) ∧
      w2.reservations = w.reservations ++ [res] ∧
      w2.rooms = w.rooms.map
        (fun r => if r.id == room_id then { r with is_available := false } else r) ∧
      w2.payments = w.payments := by
  unfold book at hok
  split at hok
  · simp at hok
  · rename_i room heq
    split at hok
    · simp at hok
    · rename_i hav
      simp only [Except.ok.injEq, Prod.mk.injEq] at hok
      obtain ⟨hres, hw2⟩ := hok
      subst hres
      subst hw2
      exact ⟨room, heq, by simpa using hav,
        rfl, rfl, rfl, rfl, rfl, rfl, rfl, rfl, rfl, rfl, rfl⟩

/-- Claim C1: a successful booking persists a reservation whose night
count is the (clamped) date difference, whose nightly rate is the
pre-tax seasonal price, whose subtotal, tax and total follow the
rounded formulas, and the reservation exists in the new store exactly
as the room becomes unavailable. -/
theorem booking_invariant (w : World) (room_id user_id : ℕ) (ci co : ℤ)
    (pm : String) (month : ℕ) (room : Room) (res : Reservation) (w2 : World)
    (hroom : findRoom w room_id = some room)
    (hok : book w room_id user_id ci co pm month = .ok (res, w2)) :
    res.days = (if co - ci ≤ 0 then 1 else co - ci) ∧
    res.daily_price
      = (calculate_price_breakdown room.base_price month).price_before_tax ∧
    res.base_price = round2 (res.daily_price * (res.days : ℚ)) ∧
    res.tax_amount = round2 (res.base_price * (10/100)) ∧
    res.total_price = round2 (res.base_price + res.tax_amount) ∧
    res ∈ w2.reservations ∧
    (∀ r ∈ w2.rooms, r.id = room_id → r.is_available = false) := by
  obtain ⟨room2, hfind2, hav, hid, hst, hpaid, hdays, hdp, hsub, htax, htot,
    hres2, hrooms, hpay⟩ := book_ok_cases hok
  rw [hroom] at hfind2
  injection hfind2 with h
  subst h
  refine ⟨hdays, hdp, hsub, by simpa [TAX_RATE] using htax, htot, ?_, ?_⟩
  · rw [hres2]; simp
  · intro r hr hrid
    rw [hrooms] at hr
    simp only [List.mem_map] at hr
    obtain ⟨r0, hr0, hfr⟩ := hr
    by_cases h : r0.id = room_id
    · rw [if_pos (by simpa using h)] at hfr
      rw [← hfr]
    · rw [if_neg (by simpa using h)] at hfr
      subst hfr
      exact absurd hrid h

/-- Witness for C1: a concrete December booking of a 100-base room for
three nights. -/
theorem booking_invariant_witness :
    book sampleWorld 1 7 0 3 "card" 12 = .ok (sampleRes, sampleWorld2) ∧
    sampleRes.base_price = round2 (sampleRes.daily_price * (sampleRes.days : ℚ)) ∧
    sampleRes ∈ sampleWorld2.reservations := by
  have hok : book sampleWorld 1 7 0 3 "card" 12 = .ok (sampleRes, sampleWorld2) := by
    norm_num [book, findRoom, sampleWorld, sampleRoom, sampleRes, sampleWorld2,
      newResId, calculate_price_breakdown, seasonal_factor, WINTER_SURGE,
      TAX_RATE, round2, roundHalfEven, List.find?]
    decide
  have h := booking_invariant sampleWorld 1 7 0 3 "card" 12 sampleRoom
    sampleRes sampleWorld2 (by norm_num [findRoom, sampleWorld, sampleRoom, List.find?]) hok
  exact ⟨hok, h.2.2.1, h.2.2.2.2.2.1⟩

/-- Claim C4: booking an unavailable room always fails with
RoomUnavailable and leaves the store untouched. -/
theorem booking_unavailable_rejected (w : World) (room_id user_id : ℕ)
    (ci co : ℤ) (pm : String) (month : ℕ) (room : Room)
    (hroom : findRoom w room_id = some room)
    (hun : room.is_available = false) :
    book w room_id user_id ci co pm month = .error .RoomUnavailable ∧
    bookRun w room_id user_id ci co pm month = w := by
  have hb : book w room_id user_id ci co pm month = .error .RoomUnavailable := by
    unfold book
    rw [hroom]
    simp [hun]
  exact ⟨hb, by unfold bookRun; rw [hb]⟩

/-- Witness for C4 on a one-room store whose room is unavailable. -/
theorem booking_unavailable_rejected_witness :
    book ⟨[⟨1, "Standard", 100, false, ""⟩], [], []⟩ 1 7 0 3 "card" 12
      = .error .RoomUnavailable ∧
    bookRun ⟨[⟨1, "Standard", 100, false, ""⟩], [], []⟩ 1 7 0 3 "card" 12
      = ⟨[⟨1, "Standard", 100, false, ""⟩], [], []⟩ :=
  booking_unavailable_rejected _ 1 7 0 3 "card" 12 ⟨1, "Standard", 100, false, ""⟩
    (by norm_num [findRoom, List.find?]) rfl

/-- Claim C6: every reservation a successful booking produces has
status "confirmed", and its paid flag is true exactly when the caller
supplied a non-empty payment-method token. -/
theorem booking_confirmed_paid (w : World) (room_id user_id : ℕ) (ci co : ℤ)
    (pm : String) (month : ℕ) (res : Reservation) (w2 : World)
    (hok : book w room_id user_id ci co pm month = .ok (res, w2)) :
    res.status = "confirmed" ∧ (res.paid = true ↔ pm ≠ "") := by
  obtain ⟨room, _, _, _, hst, hpaid, _⟩ := book_ok_cases hok
  refine ⟨hst, ?_⟩
  rw [hpaid]
  simp [bne_iff_ne]

/-- Witness for C6 with payment method "card". -/
theorem booking_confirmed_paid_witness :
    sampleRes.status = "confirmed" ∧ (sampleRes.paid = true ↔ "card" ≠ "") := by
  refine booking_confirmed_paid sampleWorld 1 7 0 3 "card" 12 sampleRes sampleWorld2 ?_
  norm_num [book, findRoom, sampleWorld, sampleRoom, sampleRes, sampleWorld2,
    newResId, calculate_price_breakdown, seasonal_factor, WINTER_SURGE,
    TAX_RATE, round2, roundHalfEven, List.find?]
  decide

/-- Claim C7: the deletion guard returns false exactly when a confirmed
reservation references the room; a tripped guard blocks deletion and an
untripped one lets it remove the room. -/
theorem delete_room_guard (w : World) (room_id : ℕ) (room : Room)
    (hroom : findRoom w room_id = some room) :
    (can_delete_room w room_id = false ↔
      ∃ r ∈ w.reservations, r.room_id = room_id ∧ r.status = "confirmed") ∧
    (can_delete_room w room_id = false → deleteRoom w room_id = w) ∧
    (can_delete_room w room_id = true →
      ∀ r ∈ (deleteRoom w room_id).rooms, r.id ≠ room_id) := by
  refine ⟨?_, ?_, ?_⟩
  · unfold can_delete_room
    rw [Option.isNone_eq_false_iff, List.find?_isSome]
    constructor
    · rintro ⟨r, hr, hp⟩
      simp only [Bool.and_eq_true, beq_iff_eq] at hp
      exact ⟨r, hr, hp⟩
    · rintro ⟨r, hr, h1, h2⟩
      exact ⟨r, hr, by simp [h1, h2]⟩
  · intro hfalse
    unfold deleteRoom
    rw [hroom, hfalse]
    simp
  · intro htrue r hr
    unfold deleteRoom at hr
    rw [hroom, htrue] at hr
    simp only [if_true] at hr
    simp only [List.mem_filter, Bool.not_eq_eq_eq_not, Bool.not_true,
      beq_eq_false_iff_ne] at hr
    exact hr.2

/-- Witness for C7 on a store holding one confirmed reservation for the
room. -/
theorem delete_room_guard_witness :
    (can_delete_room
      ⟨[⟨1, "Standard", 100, false, ""⟩], [sampleRes], []⟩ 1 = false ↔
      ∃ r ∈ [sampleRes], r.room_id = 1 ∧ r.status = "confirmed") ∧
    can_delete_room ⟨[⟨1, "Standard", 100, false, ""⟩], [sampleRes], []⟩ 1
      = false := by
  have h := delete_room_guard ⟨[⟨1, "Standard", 100, false, ""⟩], [sampleRes], []⟩ 1
    ⟨1, "Standard", 100, false, ""⟩ (by norm_num [findRoom, List.find?])
  refine ⟨h.1, ?_⟩
  rw [h.1]
  exact ⟨sampleRes, by simp [sampleRes]⟩

/-- Claim C3: over the twelve calendar months the seasonal surge
percentage recorded in the breakdown is 40 for December and January, 30
for June through August, 20 for March through May, and 0 otherwise. -/
theorem seasonal_percent_table (b : ℚ) (m : ℕ) (h1 : 1 ≤ m) (h2 : m ≤ 12) :
    (calculate_price_breakdown b m).seasonal_percent =
      (if m = 12 ∨ m = 1 then 40
       else if m = 6 ∨ m = 7 ∨ m = 8 then 30
       else if m = 3 ∨ m = 4 ∨ m = 5 then 20
       else 0) := by
  interval_cases m <;>
    norm_num [calculate_price_breakdown, seasonal_factor,
      WINTER_SURGE, SUMMER_SURGE, SPRING_SURGE]

/-- Witness for C3 at July: the surge percent is 30. -/
theorem seasonal_percent_table_witness :
    (calculate_price_breakdown 100 7).seasonal_percent = 30 := by
  have h := seasonal_percent_table 100 7 (by norm_num) (by norm_num)
  simpa using h

/-- Claim C2: for non-negative base prices the breakdown applies the
surge then the 10% tax, each rounded to two decimals, and the December
example for a base price of 100 gives 140 / 14 / 154. -/
theorem price_breakdown_formula (b : ℚ) (m : ℕ) (_h : 0 ≤ b) :
    (calculate_price_breakdown b m).price_before_tax
        = round2 (b * (1 + seasonal_factor m)) ∧
    (calculate_price_breakdown b m).tax_amount
        = round2 ((calculate_price_breakdown b m).price_before_tax * (10/100)) ∧
    (calculate_price_breakdown b m).total_price
        = round2 ((calculate_price_breakdown b m).price_before_tax
            + (calculate_price_breakdown b m).tax_amount) ∧
    calculate_price_breakdown 100 12 =
      { base_price := 100, seasonal_percent := 40, price_before_tax := 140
      , tax_amount := 14, total_price := 154 } := by
  refine ⟨rfl, rfl, rfl, ?_⟩
  norm_num [calculate_price_breakdown, seasonal_factor, WINTER_SURGE,
    TAX_RATE, round2, roundHalfEven]

/-- Witness for C2 at base price 100 in December. -/
theorem price_breakdown_formula_witness :
    calculate_price_breakdown 100 12 =
      { base_price := 100, seasonal_percent := 40, price_before_tax := 140
      , tax_amount := 14, total_price := 154 } :=
  (price_breakdown_formula 100 12 (by norm_num)).2.2.2

/-- Counterexample to claim C9 as stated: with a zero base price in
December the seasonal percent of the breakdown is 40, not zero. -/
theorem zero_base_seasonal_percent_cex :
    (calculate_price_breakdown 0 12).seasonal_percent = 40 ∧ (40 : ℤ) ≠ 0 := by
  constructor
  · norm_num [calculate_price_breakdown, seasonal_factor, WINTER_SURGE]
  · decide

/-- Claim C9 amended: a zero base price zeroes every monetary field of
the breakdown in every month; the seasonal percent stays the month's
surge percentage. -/
theorem zero_base_all_money_zero (m : ℕ) :
    (calculate_price_breakdown 0 m).base_price = 0 ∧
    (calculate_price_breakdown 0 m).price_before_tax = 0 ∧
    (calculate_price_breakdown 0 m).tax_amount = 0 ∧
    (calculate_price_breakdown 0 m).total_price = 0 := by
  have h0 : round2 0 = 0 := by norm_num [round2, roundHalfEven]
  simp [calculate_price_breakdown, h0]

/-- Counterexample to claim C10 as stated: the base price -0.001 is
negative, yet the pre-tax price rounds up to exactly 0, which is not
negative. -/
theorem negative_base_cex :
    (-1/1000 : ℚ) < 0 ∧
    (calculate_price_breakdown (-1/1000) 9).price_before_tax = 0 := by
  constructor
  · norm_num
  · norm_num [calculate_price_breakdown, seasonal_factor, round2, roundHalfEven]

/-- Claim C10 amended: the pricing functions are total over negative
base prices, no error path exists, every monetary output is
non-positive (not always strictly negative), in a 0%-surge month the
pre-tax price is just the rounded base price, and the dynamic price is
that same pre-tax value. -/
theorem negative_base_nonpos (b : ℚ) (m : ℕ) (hb : b < 0) :
    (calculate_price_breakdown b m).price_before_tax ≤ 0 ∧
    (calculate_price_breakdown b m).tax_amount ≤ 0 ∧
    (calculate_price_breakdown b m).total_price ≤ 0 ∧
    (seasonal_factor m = 0 →
      (calculate_price_breakdown b m).price_before_tax = round2 b) ∧
    calculate_dynamic_price b m
      = (calculate_price_breakdown b m).price_before_tax := by
  have hf := seasonal_factor_nonneg m
  have hs : b * (1 + seasonal_factor m) ≤ 0 := by nlinarith
  have hpbt : round2 (b * (1 + seasonal_factor m)) ≤ 0 := round2_nonpos hs
  have htax :
      round2 (round2 (b * (1 + seasonal_factor m)) * TAX_RATE) ≤ 0 := by
    refine round2_nonpos ?_
    have h10 : (0:ℚ) ≤ TAX_RATE := by norm_num [TAX_RATE]
    nlinarith
  have htot :
      round2 (round2 (b * (1 + seasonal_factor m))
        + round2 (round2 (b * (1 + seasonal_factor m)) * TAX_RATE)) ≤ 0 :=
    round2_nonpos (by linarith)
  refine ⟨hpbt, htax, htot, ?_, rfl⟩
  intro h0
  show round2 (b * (1 + seasonal_factor m)) = round2 b
  rw [h0]
  norm_num

/-- Witness for the amended C10 at base price -5 in September. -/
theorem negative_base_nonpos_witness :
    ((-5 : ℚ) < 0) ∧ (calculate_price_breakdown (-5) 9).price_before_tax ≤ 0 :=
  ⟨by norm_num, (negative_base_nonpos (-5) 9 (by norm_num)).1⟩

/-- Counterexample to claim C8 as stated: the claim calls "any" the
sentinel, but the code compares against "Any"; with the type filter
"any" an available Standard room satisfying every claimed keep
condition is nevertheless filtered out, so the result is empty. -/
theorem search_sentinel_cex :
    searchRooms [⟨1, "Standard", 100, true, ""⟩] (some "any") none 9 = [] ∧
    (⟨1, "Standard", 100, true, ""⟩ : Room).is_available = true ∧
    specKeep (some "any") none ⟨1, "Standard", 100, true, ""⟩
      (calculate_dynamic_price 100 9) := by
  refine ⟨?_, rfl, ?_, ?_⟩
  · norm_num [searchRooms, keepRoom, List.filter]
    decide
  · intro t ht hne
    injection ht with h
    exact absurd h.symm hne
  · intro m hm
    simp at hm

/-- Claim C8 amended: the search output is exactly the available rooms
in store order, each annotated with the dynamic price of the day, kept
according to the amended condition (type sentinel "Any", empty filter
ignored, parsed price cap, non-numeric cap ignored). -/
theorem search_characterization (rooms : List Room) (rt : Option String)
    (mp : MaxPriceField) (month : ℕ) :
    searchRooms rooms rt mp month =
      ((rooms.filter (fun r => r.is_available)).map
        (fun r => { room := r
                  , price_today := calculate_dynamic_price r.base_price month })).filter
        (fun rp => specKeepAmended rt mp rp.room rp.price_today) := by
  unfold searchRooms
  refine List.filter_congr ?_
  intro rp _
  unfold keepRoom specKeepAmended
  congr 1
  · cases rt with
    | none => rfl
    | some t =>
      show (!(t != "" && t != "Any" && rp.room.room_type != t))
          = (if t ≠ "" ∧ t ≠ "Any" then decide (rp.room.room_type = t) else true)
      by_cases h1 : t = ""
      · simp [h1]
      · by_cases h2 : t = "Any"
        · simp [h2]
        · rw [if_pos (show t ≠ "" ∧ t ≠ "Any" from ⟨h1, h2⟩)]
          by_cases h3 : rp.room.room_type = t <;> simp [h1, h2, h3]
  · rcases mp with _ | _ | m
    · rfl
    · rfl
    · show (!(decide (rp.price_today > m))) = decide (rp.price_today ≤ m)
      rw [← decide_not]
      exact decide_eq_decide.mpr not_lt

theorem recordPayment_not_found (w : World) (rid : ℕ) (a : ℚ) (m : String)
    (h : findReservation w rid = none) : recordPayment w rid a m = w := by
  unfold recordPayment
  rw [h]

theorem reservationUpdate_id (r : Reservation) (rid : ℕ) :
    ((if r.id == rid then { r with paid := true } else r) : Reservation).id
      = r.id := by
  split <;> rfl

theorem findReservation_recordPayment_found (w : World) (rid2 rid : ℕ)
    (a : ℚ) (m : String) (h : (findReservation w rid2).isSome) :
    findReservation (recordPayment w rid2 a m) rid
      = (findReservation w rid).map
          (fun r => if r.id == rid2 then { r with paid := true } else r) := by
  obtain ⟨r2, h2⟩ := Option.isSome_iff_exists.mp h
  simp only [recordPayment, h2]
  unfold findReservation
  rw [List.find?_map]
  have hpf : ((fun r : Reservation => r.id == rid)
        ∘ (fun r => if r.id == rid2 then { r with paid := true } else r))
      = (fun r : Reservation => r.id == rid) := by
    funext r
    simp only [Function.comp]
    exact congrArg (fun n => n == rid) (reservationUpdate_id r rid2)
  rw [hpf]

theorem recordPayment_payments_found (w : World) (rid : ℕ) (a : ℚ) (m : String)
    (h : (findReservation w rid).isSome) :
    (recordPayment w rid a m).payments
      = w.payments ++ [{ id := newPayId w, reservation_id := rid
                       , amount := a, method := m, status := "paid" }] := by
  obtain ⟨r2, h2⟩ := Option.isSome_iff_exists.mp h
  simp only [recordPayment, h2]

theorem findReservation_recordPayment_isSome (w : World) (rid2 rid : ℕ)
    (a : ℚ) (m : String) (h : (findReservation w rid).isSome) :
    (findReservation (recordPayment w rid2 a m) rid).isSome := by
  cases hf : findReservation w rid2 with
  | none => rw [recordPayment_not_found _ _ _ _ hf]; exact h
  | some r2 =>
    rw [findReservation_recordPayment_found _ _ _ _ _ (by simp [hf])]
    simpa using h

theorem payCalls_count (rid : ℕ) (calls : List (ℚ × String)) :
    ∀ w : World, (findReservation w rid).isSome →
    ((payCalls w rid calls).payments.filter
        (fun p => p.reservation_id == rid)).length
      = (w.payments.filter (fun p => p.reservation_id == rid)).length
        + calls.length := by
  induction calls with
  | nil => intro w _; simp [payCalls]
  | cons c cs ih =>
    intro w h
    have hpres := findReservation_recordPayment_isSome w rid rid c.1 c.2 h
    simp only [payCalls]
    rw [ih _ hpres, recordPayment_payments_found w rid c.1 c.2 h]
    simp [List.filter_append]
    omega

theorem payCalls_keeps_paid (rid : ℕ) (calls : List (ℚ × String)) :
    ∀ (w : World) (r : Reservation), findReservation w rid = some r →
    r.paid = true →
    ∃ r2, findReservation (payCalls w rid calls) rid = some r2 ∧
      r2.paid = true := by
  induction calls with
  | nil => intro w r h hp; exact ⟨r, h, hp⟩
  | cons c cs ih =>
    intro w r h hp
    simp only [payCalls]
    refine ih _ (if r.id == rid then { r with paid := true } else r) ?_ ?_
    · rw [findReservation_recordPayment_found _ _ _ _ _ (by simp [h]), h]
      rfl
    · split
      · rfl
      · exact hp

theorem deleteRoom_reservations (w : World) (a : ℕ) :
    (deleteRoom w a).reservations = w.reservations := by
  unfold deleteRoom
  cases hf : findRoom w a with
  | none => rfl
  | some room => split_ifs <;> rfl

theorem foldr_max_id_le (l : List Reservation) :
    ∀ r ∈ l, r.id ≤ l.foldr (fun r m => max r.id m) 0 := by
  induction l with
  | nil => intro r hr; simp at hr
  | cons a t ih =>
    intro r hr
    rcases List.mem_cons.mp hr with h | h
    · subst h
      simp only [List.foldr_cons]
      exact Nat.le_max_left _ _
    · simp only [List.foldr_cons]
      exact le_trans (ih r h) (Nat.le_max_right _ _)

theorem id_lt_newResId (w : World) (r : Reservation)
    (hr : r ∈ w.reservations) : r.id < newResId w :=
  Nat.lt_succ_of_le (foldr_max_id_le w.reservations r hr)

theorem paid_never_reset (w3 : World) (op : CoreOp)
    (hnd : (w3.reservations.map Reservation.id).Nodup)
    (r : Reservation) (hr : r ∈ w3.reservations) (hp : r.paid = true) :
    ∀ r2 ∈ (applyOp w3 op).reservations, r2.id = r.id → r2.paid = true := by
  intro r2 hr2 hid
  cases op with
  | deleteCall a =>
    simp only [applyOp] at hr2
    rw [deleteRoom_reservations] at hr2
    have heq : r2 = r :=
      List.inj_on_of_nodup_map hnd hr2 hr (by simpa using hid)
    rw [heq]; exact hp
  | payCall rid2 a m =>
    simp only [applyOp] at hr2
    cases hf : findReservation w3 rid2 with
    | none =>
      rw [recordPayment_not_found _ _ _ _ hf] at hr2
      have heq : r2 = r :=
        List.inj_on_of_nodup_map hnd hr2 hr (by simpa using hid)
      rw [heq]; exact hp
    | some rfound =>
      rw [show recordPayment w3 rid2 a m
          = { w3 with
              payments := w3.payments ++
                [{ id := newPayId w3, reservation_id := rid2
                 , amount := a, method := m, status := "paid" }]
            , reservations := w3.reservations.map
                (fun r => if r.id == rid2 then { r with paid := true } else r) }
        from by simp only [recordPayment, hf]] at hr2
      simp only [List.mem_map] at hr2
      obtain ⟨r0, hr0, hfr⟩ := hr2
      have hid0 : r0.id = r.id := by
        rw [← hid, ← hfr]
        exact (reservationUpdate_id r0 rid2).symm
      have heq : r0 = r :=
        List.inj_on_of_nodup_map hnd hr0 hr hid0
      subst heq
      rw [← hfr]
      split
      · rfl
      · exact hp
  | bookCall rida ridb c d e f =>
    simp only [applyOp, bookRun] at hr2
    cases hb : book w3 rida ridb c d e f with
    | error err =>
      rw [hb] at hr2
      have heq : r2 = r :=
        List.inj_on_of_nodup_map hnd hr2 hr (by simpa using hid)
      rw [heq]; exact hp
    | ok pair =>
      obtain ⟨resN, w4⟩ := pair
      rw [hb] at hr2
      obtain ⟨room, _, _, hidN, _, _, _, _, _, _, _, hres4, _, _⟩ :=
        book_ok_cases hb
      rw [hres4] at hr2
      rcases List.mem_append.mp hr2 with hmem | hmem
      · have heq : r2 = r :=
          List.inj_on_of_nodup_map hnd hmem hr (by simpa using hid)
        rw [heq]; exact hp
      · have h2 : r2 = resN := by simpa using hmem
        exfalso
        have hlt : r.id < newResId w3 := id_lt_newResId w3 r hr
        rw [← hid, h2, hidN] at hlt
        exact lt_irrefl _ hlt

/-- Claim C5: starting from no payments for a reservation, N >= 1
recorded payments leave exactly N payment rows referencing it, the
reservation's paid flag is true, and no core operation ever resets a
paid flag from true to false. -/
theorem payment_ledger (w : World) (rid : ℕ) (res : Reservation)
    (calls : List (ℚ × String))
    (hres : findReservation w rid = some res)
    (hzero : w.payments.filter (fun p => p.reservation_id == rid) = [])
    (hN : calls ≠ []) :
    ((payCalls w rid calls).payments.filter
        (fun p => p.reservation_id == rid)).length = calls.length ∧
    (∃ r2, findReservation (payCalls w rid calls) rid = some r2 ∧
      r2.paid = true) ∧
    (∀ (w3 : World) (op : CoreOp),
      (w3.reservations.map Reservation.id).Nodup →
      ∀ r ∈ w3.reservations, r.paid = true →
      ∀ r2 ∈ (applyOp w3 op).reservations, r2.id = r.id → r2.paid = true) := by
  refine ⟨?_, ?_, fun w3 op hnd r hr hp => paid_never_reset w3 op hnd r hr hp⟩
  · rw [payCalls_count rid calls w (by simp [hres]), hzero]
    simp
  · cases calls with
    | nil => exact absurd rfl hN
    | cons c cs =>
      have hres2 : w.reservations.find? (fun r => r.id == rid) = some res := hres
      have hbeq : (res.id == rid) = true := by
        simpa using List.find?_some hres2
      simp only [payCalls]
      refine payCalls_keeps_paid rid cs _ { res with paid := true } ?_ rfl
      rw [findReservation_recordPayment_found _ _ _ _ _ (by simp [hres]), hres]
      show some (if res.id == rid then { res with paid := true } else res)
        = some { res with paid := true }
      rw [if_pos hbeq]


/-- Witness for C5: one concrete payment against an unpaid
reservation. -/
theorem payment_ledger_witness :
    ((payCalls ⟨[], [sampleResUnpaid], []⟩ 5 [(462, "card")]).payments.filter
        (fun p => p.reservation_id == 5)).length = 1 ∧
    (∃ r2, findReservation
        (payCalls ⟨[], [sampleResUnpaid], []⟩ 5 [(462, "card")]) 5
      = some r2 ∧ r2.paid = true) := by
  have h := payment_ledger ⟨[], [sampleResUnpaid], []⟩ 5 sampleResUnpaid
    [(462, "card")]
    (by norm_num [findReservation, List.find?, sampleResUnpaid])
    rfl (by simp)
  exact ⟨h.1, h.2.1⟩
